import Mathlib

/-!
# Verification of the chatbot_RH knowledge pipeline

Shallow embedding of the HR retrieval-augmented assistant:

* `src/core/models.py` — the `RHQuestion` pydantic model and its closed
  `ProfileType` / `DomaineType` enums, plus `AgentResponse`;
* `src/data/loader.py` — `RHDataLoader.load_csv` (row validation, the
  10 percent rejection threshold), `to_documents`, and the `data` property;
* `src/data/vectorstore.py` — `RHVectorStore.search` over a FAISS index
  (the index itself is an external library and is modelled from the spec's
  black-box contract: exact-match metadata filtering around a similarity
  ranking);
* `src/agents/tools.py` — `RHTools.search_rh_knowledge`, the retrieval tool
  that renders search outcomes as sentinel strings;
* `src/agents/rh_agent.py` — the deterministic tail of `RHAgent.invoke`
  (extraction of `sources_used` and the exception fallback response);
* `src/api/routes.py` — the `/query` endpoint, which returns the
  `AgentResponse` verbatim.

Machine integers do not overflow in any of the modelled code paths, so ids
and counters are `Int`/`Nat`.  Python `str.strip` is modelled by
`pyStrip`, Python's substring test `a in b` by `List.IsInfix` on the
character lists, and Python exceptions by `Except`.
-/

/-- Python `str.strip()` with no argument: remove leading and trailing
whitespace.  Defined structurally over the character list so that concrete
instances evaluate inside the kernel. -/
def pyStrip (s : String) : String :=
  ⟨(s.data.dropWhile Char.isWhitespace).rdropWhile Char.isWhitespace⟩

/-- Python `int()` applied to a string: surrounding whitespace is
tolerated, an optional sign is followed by at least one decimal digit;
anything else raises, modelled as `none`.  (Digit-group underscores and
non-ASCII digits are not modelled; no cell of the knowledge table uses
them.) -/
def parseDigits : List Char → Nat → Option Nat
  | [], acc => some acc
  | c :: cs, acc =>
    if c.isDigit then parseDigits cs (acc * 10 + (c.toNat - 48))
    else none

/-- The sign-and-digits part of Python `int()`. -/
def pyInt (s : String) : Option Int :=
  match (pyStrip s).data with
  | [] => none
  | '-' :: cs =>
    if cs = [] then none else (parseDigits cs 0).map (fun n => -(n : Int))
  | '+' :: cs =>
    if cs = [] then none else (parseDigits cs 0).map (fun n => (n : Int))
  | cs => (parseDigits cs 0).map (fun n => (n : Int))

/-- `ProfileType` from `src/core/models.py`
    (also `settings.VALID_PROFILES`). -/
def VALID_PROFILES : List String :=
  ["CDI", "CDD", "Intérim", "Cadre", "Non-Cadre", "Stagiaire"]

/-- `DomaineType` from `src/core/models.py`
    (also `settings.VALID_DOMAINS`). -/
def VALID_DOMAINS : List String :=
  ["Congés", "Avantages", "Transport", "Temps de travail", "Paie"]

/-- The `RHQuestion` pydantic model (`src/core/models.py`). A constructed
value always went through the field constraints, encoded in `validateRow`
below. -/
structure RHQuestion where
  question_id : Int
  profil : String
  domaine : String
  question : String
  reponse : String
deriving DecidableEq, Repr

/-- One raw row of the CSV table, the five required columns as text cells
(after `fillna("")` every cell is a string; we model the cell contents as
the CSV text). -/
structure RawRow where
  question_id : String
  profil : String
  domaine : String
  question : String
  reponse : String
deriving DecidableEq, Repr

/-- `int(row["question_id"]) if row["question_id"] else index + 1`
(`src/data/loader.py` line 80): an empty cell falls back to the row
position plus one; otherwise Python `int()` parses the cell as a decimal
integer (surrounding whitespace tolerated) and raises — here `none` — on
anything else. -/
def parseQuestionId (cell : String) (index : Nat) : Option Int :=
  if cell = "" then some ((index : Int) + 1)
  else pyInt cell

/-- Pydantic validation of one string field of `RHQuestion`
(`src/core/models.py` lines 27–36): the `min_length` constraint on the
incoming value, then the `validate_non_empty` field validator, which
rejects values that are empty after `strip()` and stores the stripped
value. -/
def pydanticStrField (v : String) (minLength : Nat) : Option String :=
  if minLength ≤ v.length then
    if pyStrip v = "" then none else some (pyStrip v)
  else none

/-- The body of the per-row loop in `RHDataLoader.load_csv`
(`src/data/loader.py` lines 77–92): build an `RHQuestion` from the
stripped cells, `none` when pydantic rejects the row (invalid enum value,
too-short or empty text, unparsable id). -/
def validateRow (index : Nat) (row : RawRow) : Option RHQuestion :=
  match parseQuestionId row.question_id index with
  | none => none
  | some qid =>
    if VALID_PROFILES.contains (pyStrip row.profil)
        ∧ VALID_DOMAINS.contains (pyStrip row.domaine) then
      match pydanticStrField (pyStrip row.question) 5,
            pydanticStrField (pyStrip row.reponse) 10 with
      | some q, some r =>
        some { question_id := qid, profil := pyStrip row.profil,
               domaine := pyStrip row.domaine, question := q, reponse := r }
      | _, _ => none
    else none

/-- The validation pass of `load_csv` over the whole table: the list of
validated records (`validated_data`) and the number of rejected rows
(`len(errors)`). -/
def validateTable (rows : List RawRow) : List RHQuestion × Nat :=
  let results := rows.enum.map (fun p => validateRow p.1 p.2)
  (results.filterMap id, (results.filter Option.isNone).length)

/-- The error taxonomy of `src/core/exceptions.py` used by the loader. -/
inductive LoadError where
  | CSVLoadError (path : String) (msg : String)
  | InvalidDataFormatError (expected : String) (received : String)
deriving DecidableEq, Repr

/-- The loader's mutable state: `self._data` (`src/data/loader.py`
line 32). -/
structure LoaderState where
  data : List RHQuestion
deriving DecidableEq, Repr

/-- `RHDataLoader.load_csv` from the row-validation stage on
(`src/data/loader.py` lines 73–110); the file read and the
required-columns check upstream are abstracted as the given row list.
The Python threshold test `len(errors) > len(self._df) * 0.1` is exact
integer arithmetic here (`10 * errors > rows`), which agrees with the
binary floating-point comparison for every table size below `2 ^ 50`.
Rejected rows below the threshold are only printed as warnings; the
returned state holds exactly the validated rows. -/
def load_csv (s : LoaderState) (rows : List RawRow) :
    Except LoadError LoaderState :=
  let validated := (validateTable rows).1
  let nerrors := (validateTable rows).2
  if 10 * nerrors > rows.length then
    .error (.InvalidDataFormatError
      "Données valides selon le modèle RHQuestion"
      (toString nerrors ++ " erreurs de validation"))
  else
    .ok { s with data := validated }

/-- Metadata attached to an indexed document
(`src/data/loader.py` lines 138–142). -/
structure DocMetadata where
  profil : String
  domaine : String
  question_id : Int
deriving DecidableEq, Repr

/-- A LangChain `Document`: searchable text plus metadata. -/
structure Document where
  page_content : String
  metadata : DocMetadata
deriving DecidableEq, Repr

/-- The projection of one validated record to a `Document`
(`src/data/loader.py` lines 133–146). -/
def recordToDocument (q : RHQuestion) : Document :=
  { page_content :=
      "Question: " ++ q.question ++ "\nRéponse: " ++ q.reponse,
    metadata :=
      { profil := q.profil, domaine := q.domaine,
        question_id := q.question_id } }

/-- `RHDataLoader.to_documents` (`src/data/loader.py` lines 121–149):
raises `DataError` when no data is loaded, otherwise maps every record to
its document, in order. -/
def to_documents (s : LoaderState) : Except String (List Document) :=
  if s.data = [] then
    .error "Aucune donnée chargée. Appelez load_csv() d'abord."
  else
    .ok (s.data.map recordToDocument)

/-- Modelled from the spec: the external FAISS vector index behind
`RHVectorStore` (`langchain_community.vectorstores.FAISS`, outside this
repository).  Spec section 1 treats it as a black-box capability — "index
vectors, k-NN search with exact-match metadata filter" — and section 4.3
states that `search` returns the nearest documents among those whose
metadata exactly matches every key of the filter.  `rank q` is the full
similarity ranking of the indexed documents for query `q`; it is abstract
except for being a permutation of the indexed documents. -/
structure FAISSIndex where
  docs : List Document
  rank : String → List Document
  rank_perm : ∀ q : String, (rank q).Perm docs

/-- Lookup of a metadata key as the filter sees it (a missing key matches
nothing, like Python `metadata.get(key)` returning `None`). -/
def metadataGet (m : DocMetadata) (key : String) : Option String :=
  if key = "profil" then some m.profil
  else if key = "domaine" then some m.domaine
  else none

/-- Exact-match metadata filtering: a document qualifies when every
key/value pair of the filter equals its metadata. -/
def matchesFilter (m : DocMetadata) (f : List (String × String)) : Bool :=
  f.all fun kv =>
    match metadataGet m kv.1 with
    | some v => v == kv.2
    | none => false

/-- Modelled from the spec: `FAISS.similarity_search` with a metadata
filter — the `k` best-ranked documents among those matching the filter. -/
def similarity_search (idx : FAISSIndex) (query : String) (k : Nat)
    (filter_dict : List (String × String)) : List Document :=
  ((idx.rank query).filter (fun d => matchesFilter d.metadata filter_dict)).take k

/-- `VectorStoreError` (`src/core/exceptions.py`), carrying its message. -/
structure VectorStoreError where
  message : String
deriving DecidableEq, Repr

/-- `RHVectorStore` (`src/data/vectorstore.py`): holds the optional FAISS
handle (`self.vectorstore`). -/
structure RHVectorStore where
  vectorstore : Option FAISSIndex

/-- `RHVectorStore.search` (`src/data/vectorstore.py` lines 150–188):
raises `VectorStoreError` when the index is not initialized, otherwise
delegates to `similarity_search`; an exception out of the index layer
would be re-wrapped as a `VectorStoreError`, which the `Except` error
channel models. -/
def RHVectorStore.search (vs : RHVectorStore) (query : String) (k : Nat)
    (filter_dict : List (String × String)) :
    Except VectorStoreError (List Document) :=
  match vs.vectorstore with
  | none => .error { message := "Vectorstore non initialisé" }
  | some idx => .ok (similarity_search idx query k filter_dict)

/-- Filter construction in `RHTools.search_rh_knowledge`
(`src/agents/tools.py` lines 51–54): always the profile, plus the domain
when it is supplied and truthy (a `None` or empty domain is omitted). -/
def buildSearchFilter (user_profile : String) (domaine : Option String) :
    List (String × String) :=
  match domaine with
  | some d => if d = "" then [("profil", user_profile)]
              else [("profil", user_profile), ("domaine", d)]
  | none => [("profil", user_profile)]

/-- The zero-result sentinel string returned by the retrieval tool
(`src/agents/tools.py` lines 68–73). -/
def ERREUR_NOT_FOUND_MSG : String :=
  "ERREUR_NOT_FOUND: Je ne trouve pas de procédure spécifique " ++
  "pour votre profil et cette question. " ++
  "Veuillez contacter le service RH ou consulter le portail SAP."

/-- The technical-error sentinel string returned by the retrieval tool
(`src/agents/tools.py` lines 86–90), carrying the exception detail. -/
def ERREUR_TECHNIQUE_MSG (detail : String) : String :=
  "ERREUR_TECHNIQUE: Une erreur s\x27est produite lors de la recherche. " ++
  "Détails: " ++ detail

/-- Python `"\n".join`. -/
def joinNewline : List String → String
  | [] => ""
  | [a] => a
  | a :: b :: rest => a ++ "\n" ++ joinNewline (b :: rest)

/-- The result-formatting loop of the retrieval tool
(`src/agents/tools.py` lines 76–83): for the `i`-th document (1-based) the
lines `--- Résultat i ---`, the page content, the provenance line, and an
empty line. -/
def formatEntries : Nat → List Document → List String
  | _, [] => []
  | i, d :: ds =>
    ("--- Résultat " ++ toString i ++ " ---") ::
    d.page_content ::
    ("(Profil: " ++ d.metadata.profil ++ ", Domaine: " ++
      d.metadata.domaine ++ ")") ::
    "" ::
    formatEntries (i + 1) ds

/-- `"\n".join(results)` over the formatted entries
(`src/agents/tools.py` line 84). -/
def formatResults (docs : List Document) : String :=
  joinNewline (formatEntries 1 docs)

/-- The `try`/`except` body of `RHTools.search_rh_knowledge` applied to
the outcome of the `vs.search` call (`src/agents/tools.py` lines 61–90):
a caught exception becomes the technical sentinel, an empty result the
not-found sentinel, anything else the formatted results.  The function is
total — no exception escapes. -/
def handleSearchResult (res : Except VectorStoreError (List Document)) :
    String :=
  match res with
  | .error e => ERREUR_TECHNIQUE_MSG e.message
  | .ok [] => ERREUR_NOT_FOUND_MSG
  | .ok docs => formatResults docs

/-- `RHTools.search_rh_knowledge` (`src/agents/tools.py` lines 33–90). -/
def search_rh_knowledge (vs : RHVectorStore) (query : String)
    (user_profile : String) (domaine : Option String) (k : Nat) : String :=
  handleSearchResult
    (vs.search query k (buildSearchFilter user_profile domaine))

/-- The tagged retrieval outcome of spec section 4.4; the tool serializes
it as a string with a reserved sentinel prefix (spec section 6). -/
inductive RetrievalOutcome where
  | Found
  | NotFound
  | TechnicalError
deriving DecidableEq, Repr

/-- Outcome carried by a tool result string, recovered from its reserved
sentinel prefix (spec section 6: the sentinels are literal tokens
distinguishable from normal content). -/
def classifyToolResult (s : String) : RetrievalOutcome :=
  if "ERREUR_NOT_FOUND".data.isPrefixOf s.data then .NotFound
  else if "ERREUR_TECHNIQUE".data.isPrefixOf s.data then .TechnicalError
  else .Found

/-- The `AgentResponse` pydantic model (`src/core/models.py`
lines 75–87). -/
structure AgentResponse where
  response : String
  thread_id : String
  sources_used : Bool
  error : Option String
deriving DecidableEq, Repr

/-- The fixed technical-difficulty sentence of the `except` branch of
`RHAgent.invoke` (`src/agents/rh_agent.py` lines 193–197). -/
def TECH_DIFFICULTY_MSG : String :=
  "Je rencontre une difficulté technique. " ++
  "Veuillez réessayer ou contacter le service RH."

/-- The fixed redirection sentence the system prompt orders the
generative layer to emit verbatim on `ERREUR_NOT_FOUND`
(`src/agents/rh_agent.py` lines 40–41). -/
def NOT_FOUND_SENTENCE : String :=
  "Désolé, je ne peux pas répondre à cette question précisément " ++
  "avec les données actuelles. Veuillez contacter le service RH."

/-- Python `needle in haystack` on strings: substring containment. -/
def pyContains (needle haystack : String) : Bool :=
  decide (needle.data <:+: haystack.data)

/-- The deterministic tail of `RHAgent.invoke`
(`src/agents/rh_agent.py` lines 170–201), given the outcome of the
generative round trip: `.ok content` is the extracted final message
content, `.error e` a raised exception (as its message).  On success,
`sources_used = "ERREUR_NOT_FOUND" not in response_content`; on
exception, the response is the fixed technical-difficulty sentence, with
`sources_used = False` and the raw exception message in `error`. -/
def agentInvoke (extract : Except String String) (thread_id : String) :
    AgentResponse :=
  match extract with
  | .ok content =>
    { response := content, thread_id := thread_id,
      sources_used := !(pyContains "ERREUR_NOT_FOUND" content),
      error := none }
  | .error e =>
    { response := TECH_DIFFICULTY_MSG, thread_id := thread_id,
      sources_used := false, error := some e }

/-- The `/query` endpoint (`src/api/routes.py` lines 85–101): the
`AgentResponse` produced by `agent.invoke` is returned to the HTTP client
verbatim (`response_model=AgentResponse` serializes every field,
including `error`). -/
def queryRoute (resp : AgentResponse) : AgentResponse :=
  resp

/-- One conversation turn through the agent, as far as the code
determines it: the string the retrieval tool returned for the turn and
the final message content the (opaque) generative layer produced from
it. -/
structure Turn where
  toolResult : String
  llmContent : String

/-- The retrieval outcome of a turn, read off the tool's sentinel
prefix. -/
def turnOutcome (t : Turn) : RetrievalOutcome :=
  classifyToolResult t.toolResult

/-- The `AgentResponse` of a turn that completed without an exception. -/
def turnResponse (t : Turn) (thread_id : String) : AgentResponse :=
  agentInvoke (.ok t.llmContent) thread_id

/-- A heap of Python list objects holding `RHQuestion` records, to state
aliasing facts: addresses are indices into `cells`. -/
structure ListHeap where
  cells : List (List RHQuestion)
deriving DecidableEq, Repr

/-- Dereference an address (an absent address reads as the empty
list). -/
def ListHeap.read (h : ListHeap) (a : Nat) : List RHQuestion :=
  h.cells.getD a []

/-- In-place mutation of the list object at address `a`. -/
def ListHeap.write (h : ListHeap) (a : Nat) (v : List RHQuestion) :
    ListHeap :=
  { cells := h.cells.set a v }

/-- The `RHDataLoader.data` property (`src/data/loader.py`
lines 198–201): `return self._data.copy()` — allocates a fresh list
object with the same contents and returns its address. -/
def dataProperty (h : ListHeap) (selfData : Nat) : ListHeap × Nat :=
  ({ cells := h.cells ++ [h.read selfData] }, h.cells.length)

/-- A valid sample row of the knowledge table. -/
def sampleRow : RawRow :=
  { question_id := "1", profil := "CDI", domaine := "Congés",
    question := "Combien de jours de congés payés ?",
    reponse := "Vingt-cinq jours ouvrés par an." }

/-- The record `validateRow` produces from `sampleRow`. -/
def sampleRecord : RHQuestion :=
  { question_id := 1, profil := "CDI", domaine := "Congés",
    question := "Combien de jours de congés payés ?",
    reponse := "Vingt-cinq jours ouvrés par an." }

/-- A row whose question is non-empty after trimming but shorter than the
pydantic minimum length of five characters. -/
def shortQuestionRow : RawRow :=
  { question_id := "2", profil := "CDI", domaine := "Congés",
    question := "RTT",
    reponse := "Une réponse suffisamment longue pour le modèle." }

/-- A row with a profile outside the closed enum. -/
def badProfilRow : RawRow :=
  { question_id := "3", profil := "Consultant", domaine := "Congés",
    question := "Combien de jours de congés payés ?",
    reponse := "Vingt-cinq jours ouvrés par an." }

/-- A one-document index used to instantiate the search theorems. -/
def sampleIndex : FAISSIndex :=
  { docs := [recordToDocument sampleRecord],
    rank := fun _ => [recordToDocument sampleRecord],
    rank_perm := fun _ => List.Perm.refl _ }

/-- An index holding no documents: every search over it returns no
result. -/
def emptyIndex : FAISSIndex :=
  { docs := [], rank := fun _ => [], rank_perm := fun _ => List.Perm.refl [] }

/-- A turn in which retrieval found nothing and the generative layer
obeyed the system prompt, replacing the sentinel by the fixed redirection
sentence. -/
def notFoundObedientTurn : Turn :=
  { toolResult :=
      search_rh_knowledge { vectorstore := some emptyIndex }
        "congés" "CDI" none 4,
    llmContent := NOT_FOUND_SENTENCE }

/-- Stripping is idempotent: a stripped string strips to itself. -/
theorem pyStrip_idem (s : String) : pyStrip (pyStrip s) = pyStrip s := by
  apply String.ext
  show ((List.rdropWhile Char.isWhitespace
      (List.dropWhile Char.isWhitespace s.data)).dropWhile
        Char.isWhitespace).rdropWhile Char.isWhitespace =
    (s.data.dropWhile Char.isWhitespace).rdropWhile Char.isWhitespace
  set A := List.dropWhile Char.isWhitespace s.data with hA
  have hstep : List.dropWhile Char.isWhitespace
      (List.rdropWhile Char.isWhitespace A) =
      List.rdropWhile Char.isWhitespace A := by
    rw [List.dropWhile_eq_self_iff]
    intro hl
    obtain ⟨t, ht⟩ := List.rdropWhile_prefix Char.isWhitespace A
    have hlA : 0 < A.length := by
      rw [← ht]
      simp only [List.length_append]
      omega
    have h0 : A[0]? = (List.rdropWhile Char.isWhitespace A)[0]? := by
      conv_lhs => rw [← ht]
      exact List.getElem?_append_left hl
    have h1 : A[0]? = some (A.get ⟨0, hlA⟩) := List.getElem?_eq_getElem hlA
    have h2 : (List.rdropWhile Char.isWhitespace A)[0]? =
        some ((List.rdropWhile Char.isWhitespace A).get ⟨0, hl⟩) :=
      List.getElem?_eq_getElem hl
    have h3 : (List.rdropWhile Char.isWhitespace A).get ⟨0, hl⟩ =
        A.get ⟨0, hlA⟩ := by
      have h4 := h1.symm.trans (h0.trans h2)
      exact (Option.some.inj h4).symm
    rw [h3]
    exact List.dropWhile_get_zero_not _ _ hlA
  rw [hstep, List.rdropWhile_idempotent]

/-- Applying the pydantic string-field validation to an already stripped
value reduces to the minimum-length test. -/
theorem pydanticStrField_strip (v : String) (n : Nat) (hn : 0 < n) :
    pydanticStrField (pyStrip v) n =
      if n ≤ (pyStrip v).length then some (pyStrip v) else none := by
  unfold pydanticStrField
  rw [pyStrip_idem]
  by_cases h1 : n ≤ (pyStrip v).length
  · by_cases h2 : pyStrip v = ""
    · exfalso
      rw [h2] at h1
      have h3 : n ≤ 0 := h1
      omega
    · simp [h1, h2]
  · simp [h1]

/-- Technical sentinel strings classify as `TechnicalError`, whatever the
detail appended after the reserved prefix. -/
theorem classify_technique (detail : String) :
    classifyToolResult (ERREUR_TECHNIQUE_MSG detail) = .TechnicalError := by
  unfold classifyToolResult
  have h : (ERREUR_TECHNIQUE_MSG detail).data =
      ("ERREUR_TECHNIQUE: Une erreur s\x27est produite lors de la recherche. " ++
        "Détails: ").data ++ detail.data := by
    rw [← String.data_append]
    rfl
  rw [h]
  rfl

/-- The not-found sentinel string classifies as `NotFound`. -/
theorem classify_notfound :
    classifyToolResult ERREUR_NOT_FOUND_MSG = .NotFound := by
  rfl

/-- A formatted non-empty result block never carries a sentinel prefix:
it classifies as `Found`, whatever the documents hold. -/
theorem classify_found (d : Document) (ds : List Document) :
    classifyToolResult (formatResults (d :: ds)) = .Found := by
  unfold classifyToolResult
  have h : (formatResults (d :: ds)).data =
      ("--- Résultat " ++ toString 1 ++ " ---" ++ "\n").data ++
      (joinNewline (d.page_content ::
        ("(Profil: " ++ d.metadata.profil ++ ", Domaine: " ++
          d.metadata.domaine ++ ")") :: "" :: formatEntries 2 ds)).data := by
    rw [← String.data_append]
    rfl
  rw [h]
  rfl

/-- C2 (amended): `validateRow` accepts a raw row exactly when its id cell
parses (or is empty), its stripped profile and domain are members of the
closed enums, and its stripped question and answer reach the pydantic
minimum lengths of 5 and 10 characters — strictly stronger than the
claimed "non-empty after trimming"; and every accepted record carries
enum-valid profile and domain and non-empty stripped question and
answer. -/
theorem validateRow_accept_iff (i : Nat) (row : RawRow) :
    ((validateRow i row).isSome ↔
      ((parseQuestionId row.question_id i).isSome ∧
        pyStrip row.profil ∈ VALID_PROFILES ∧
        pyStrip row.domaine ∈ VALID_DOMAINS ∧
        5 ≤ (pyStrip row.question).length ∧
        10 ≤ (pyStrip row.reponse).length)) ∧
    ∀ q, validateRow i row = some q →
      q.profil ∈ VALID_PROFILES ∧ q.domaine ∈ VALID_DOMAINS ∧
      q.question ≠ "" ∧ q.reponse ≠ "" ∧
      pyStrip q.question = q.question ∧ pyStrip q.reponse = q.reponse := by
  unfold validateRow
  cases hpid : parseQuestionId row.question_id i with
  | none =>
    dsimp only
    constructor
    · simp only [Option.isSome_none, Bool.false_eq_true, false_iff]
      intro hcon
      exact absurd hcon.1 (by simp)
    · intro q hq2
      exact absurd hq2 (by simp)
  | some qid =>
    dsimp only
    rw [pydanticStrField_strip _ _ (by omega),
        pydanticStrField_strip _ _ (by omega)]
    by_cases hpd : VALID_PROFILES.contains (pyStrip row.profil)
        ∧ VALID_DOMAINS.contains (pyStrip row.domaine)
    · rw [if_pos hpd]
      obtain ⟨hp1, hp2⟩ := hpd
      by_cases hq : 5 ≤ (pyStrip row.question).length
      · by_cases hr : 10 ≤ (pyStrip row.reponse).length
        · rw [if_pos hq, if_pos hr]
          constructor
          · constructor
            · intro _
              exact ⟨by simp, List.elem_iff.mp hp1, List.elem_iff.mp hp2,
                     hq, hr⟩
            · intro _
              simp
          · intro q hq2
            have hqeq := Option.some.inj hq2
            subst hqeq
            refine ⟨List.elem_iff.mp hp1, List.elem_iff.mp hp2, ?_, ?_,
                    pyStrip_idem _, pyStrip_idem _⟩
            · show pyStrip row.question ≠ ""
              intro he
              rw [he] at hq
              have h5 : (5 : Nat) ≤ 0 := hq
              omega
            · show pyStrip row.reponse ≠ ""
              intro he
              rw [he] at hr
              have h5 : (10 : Nat) ≤ 0 := hr
              omega
        · rw [if_pos hq, if_neg hr]
          constructor
          · simp only [Option.isSome_none, Bool.false_eq_true, false_iff]
            intro hcon
            exact hr hcon.2.2.2.2
          · intro q hq2
            exact absurd hq2 (by simp)
      · rw [if_neg hq]
        constructor
        · simp only [Option.isSome_none, Bool.false_eq_true, false_iff]
          intro hcon
          exact hq hcon.2.2.2.1
        · intro q hq2
          exact absurd hq2 (by simp)
    · rw [if_neg hpd]
      constructor
      · simp only [Option.isSome_none, Bool.false_eq_true, false_iff]
        intro hcon
        exact hpd ⟨List.elem_iff.mpr hcon.2.1, List.elem_iff.mpr hcon.2.2.1⟩
      · intro q hq2
        exact absurd hq2 (by simp)

/-- C2 (counterexample): a row with enum-valid profile and domain and
question and answer non-empty after trimming — every condition the claim
states — is nevertheless rejected, because its trimmed question has fewer
than the 5 characters pydantic demands. -/
theorem validateRow_nonempty_not_sufficient :
    validateRow 1 shortQuestionRow = none ∧
    pyStrip shortQuestionRow.profil ∈ VALID_PROFILES ∧
    pyStrip shortQuestionRow.domaine ∈ VALID_DOMAINS ∧
    pyStrip shortQuestionRow.question ≠ "" ∧
    pyStrip shortQuestionRow.reponse ≠ "" :=
  ⟨by rfl, by decide, by decide, by decide, by decide⟩

/-- C2 (witness): the invariant half of `validateRow_accept_iff`
instantiated at a concrete accepted row. -/
theorem validateRow_accept_iff_witness :
    sampleRecord.profil ∈ VALID_PROFILES ∧
    sampleRecord.domaine ∈ VALID_DOMAINS ∧
    sampleRecord.question ≠ "" ∧ sampleRecord.reponse ≠ "" ∧
    pyStrip sampleRecord.question = sampleRecord.question ∧
    pyStrip sampleRecord.reponse = sampleRecord.reponse :=
  (validateRow_accept_iff 0 sampleRow).2 sampleRecord (by rfl)

/-- C3: `load_csv` fails — with `InvalidDataFormatError` and no record
set — exactly when the rejected rows exceed 10 percent of the table, and
otherwise returns exactly the validated rows, the rejected ones surfacing
only as printed warnings. -/
theorem load_csv_threshold (s : LoaderState) (rows : List RawRow) :
    ((∃ exp rcv, load_csv s rows =
        .error (.InvalidDataFormatError exp rcv)) ↔
      10 * (validateTable rows).2 > rows.length) ∧
    (10 * (validateTable rows).2 ≤ rows.length →
      load_csv s rows = .ok { data := (validateTable rows).1 }) := by
  unfold load_csv
  by_cases hc : 10 * (validateTable rows).2 > rows.length
  · rw [if_pos hc]
    constructor
    · exact ⟨fun _ => hc, fun _ => ⟨_, _, rfl⟩⟩
    · intro hle
      omega
  · rw [if_neg hc]
    constructor
    · constructor
      · rintro ⟨exp, rcv, hcon⟩
        exact absurd hcon (by simp)
      · intro hgt
        exact absurd hgt hc
    · intro _
      rfl

/-- C3 (witness): a one-row valid table loads, and a two-row table with
one bad enum value — 50 percent rejected — fails with the format error. -/
theorem load_csv_threshold_witness :
    10 * (validateTable [sampleRow]).2 ≤ ([sampleRow] : List RawRow).length ∧
    load_csv { data := [] } [sampleRow] =
      .ok { data := (validateTable [sampleRow]).1 } ∧
    (∃ exp rcv, load_csv { data := [] } [sampleRow, badProfilRow] =
      .error (.InvalidDataFormatError exp rcv)) :=
  ⟨by decide,
   (load_csv_threshold { data := [] } [sampleRow]).2 (by decide),
   ((load_csv_threshold { data := [] } [sampleRow, badProfilRow]).1).mpr
     (by decide)⟩

/-- C9: loading the same table again is idempotent — a second
`load_csv` over the same rows, from the state the first one left, yields
the identical record set (same ids, same contents, same order). -/
theorem load_csv_idempotent (s s2 : LoaderState) (rows : List RawRow)
    (h : load_csv s rows = .ok s2) :
    load_csv s2 rows = .ok s2 := by
  have heq : load_csv s2 rows = load_csv s rows := rfl
  rw [heq, h]

/-- C9 (witness): reloading the one-row sample table from its own result
state reproduces that state. -/
theorem load_csv_idempotent_witness :
    load_csv { data := [sampleRecord] } [sampleRow] =
      .ok { data := [sampleRecord] } :=
  load_csv_idempotent { data := [] } { data := [sampleRecord] } [sampleRow]
    (by rfl)

/-- C8: `to_documents` fails with the `DataError` exactly when no records
are loaded, and otherwise is a pure 1:1 order-preserving projection: as
many documents as records, the i-th document derived from the i-th
record, with no filtering or deduplication. -/
theorem to_documents_spec (s : LoaderState) :
    (to_documents s =
        .error "Aucune donnée chargée. Appelez load_csv() d\x27abord." ↔
      s.data = []) ∧
    ∀ docs, to_documents s = .ok docs →
      docs.length = s.data.length ∧
      ∀ (i : Nat) (h1 : i < docs.length) (h2 : i < s.data.length),
        docs.get ⟨i, h1⟩ = recordToDocument (s.data.get ⟨i, h2⟩) := by
  unfold to_documents
  by_cases h : s.data = []
  · rw [if_pos h]
    constructor
    · simp [h]
    · intro docs hd
      exact absurd hd (by simp)
  · rw [if_neg h]
    constructor
    · constructor
      · intro hcon
        exact absurd hcon (by simp)
      · intro hnil
        exact absurd hnil h
    · intro docs hd
      have hdocs : docs = s.data.map recordToDocument :=
        (Except.ok.inj hd).symm
      subst hdocs
      refine ⟨List.length_map _ _, ?_⟩
      intro i h1 h2
      simp

/-- C8 (witness): the projection of a one-record loader, with the
hypothesis discharged at the concrete document list. -/
theorem to_documents_spec_witness :
    ([recordToDocument sampleRecord] : List Document).length =
      ({ data := [sampleRecord] } : LoaderState).data.length :=
  ((to_documents_spec { data := [sampleRecord] }).2
    [recordToDocument sampleRecord] (by rfl)).1

/-- C10: the `data` property returns a fresh copy — reading it allocates
a new list object with equal contents, and mutating that object leaves
the records the loader stores (and hence what a later `to_documents`
observes) unchanged. -/
theorem data_property_no_alias (h : ListHeap) (a : Nat)
    (ha : a < h.cells.length) :
    ((dataProperty h a).1.read (dataProperty h a).2 = h.read a) ∧
    ∀ v, ((dataProperty h a).1.write (dataProperty h a).2 v).read a =
        h.read a ∧
      to_documents
          { data :=
              ((dataProperty h a).1.write (dataProperty h a).2 v).read a } =
        to_documents { data := h.read a } := by
  constructor
  · show (h.cells ++ [h.read a]).getD h.cells.length [] = h.read a
    rw [List.getD_eq_getElem?_getD, List.getElem?_concat_length]
    rfl
  · intro v
    have hread :
        ((dataProperty h a).1.write (dataProperty h a).2 v).read a =
          h.read a := by
      show ((h.cells ++ [h.read a]).set h.cells.length v).getD a [] =
        h.cells.getD a []
      rw [List.getD_eq_getElem?_getD, List.getD_eq_getElem?_getD,
          List.getElem?_set_ne (by omega), List.getElem?_append_left ha]
    exact ⟨hread, by rw [hread]⟩

/-- C10 (witness): the copy returned for a concrete one-cell heap reads
back the stored records. -/
theorem data_property_no_alias_witness :
    (dataProperty { cells := [[sampleRecord]] } 0).1.read
        (dataProperty { cells := [[sampleRecord]] } 0).2 =
      ListHeap.read { cells := [[sampleRecord]] } 0 :=
  (data_property_no_alias { cells := [[sampleRecord]] } 0 (by decide)).1

/-- C4: the metadata filter is a hard membership constraint — a document
whose profile differs from the profile named in the filter is never
among the results of `search`, for any query and any `k`. -/
theorem search_profile_filter_hard
    (idx : FAISSIndex) (q : String) (k : Nat) (pf : String)
    (rest : List (String × String)) (res : List Document) (d : Document)
    (hsearch : RHVectorStore.search { vectorstore := some idx } q k
        (("profil", pf) :: rest) = .ok res)
    (hne : d.metadata.profil ≠ pf) : d ∉ res := by
  intro hmem
  have hres : res = similarity_search idx q k (("profil", pf) :: rest) :=
    (Except.ok.inj hsearch).symm
  subst hres
  have hmem2 := List.mem_of_mem_take hmem
  have hflt := (List.mem_filter.mp hmem2).2
  unfold matchesFilter at hflt
  rw [List.all_cons] at hflt
  have h1 := ((Bool.and_eq_true _ _).mp hflt).1
  simp [metadataGet] at h1
  exact hne h1

/-- C4 (witness): the CDI sample document is excluded from a search
filtered to CDD. -/
theorem search_profile_filter_hard_witness :
    recordToDocument sampleRecord ∉
      similarity_search sampleIndex "congés" 4 [("profil", "CDD")] :=
  search_profile_filter_hard sampleIndex "congés" 4 "CDD" []
    (similarity_search sampleIndex "congés" 4 [("profil", "CDD")])
    (recordToDocument sampleRecord) rfl (by decide)

/-- C5: on an initialized index, `search` always returns (no error is
raised), the result never exceeds `k` documents, and a filter no indexed
document satisfies yields the empty sequence. -/
theorem search_filter_total (idx : FAISSIndex) (q : String) (k : Nat)
    (f : List (String × String)) :
    (∃ res, RHVectorStore.search { vectorstore := some idx } q k f =
        .ok res ∧ res.length ≤ k) ∧
    ((∀ d ∈ idx.docs, matchesFilter d.metadata f = false) →
      RHVectorStore.search { vectorstore := some idx } q k f = .ok []) := by
  constructor
  · refine ⟨similarity_search idx q k f, rfl, ?_⟩
    unfold similarity_search
    rw [List.length_take]
    exact min_le_left _ _
  · intro hnone
    have hfilter : (idx.rank q).filter
        (fun d => matchesFilter d.metadata f) = [] := by
      rw [List.filter_eq_nil_iff]
      intro d hd
      have hdm : d ∈ idx.docs := (idx.rank_perm q).mem_iff.mp hd
      simp [hnone d hdm]
    show Except.ok (similarity_search idx q k f) = .ok []
    unfold similarity_search
    rw [hfilter, List.take_nil]

/-- C5 (witness): a filter matching no document of the one-document
sample index returns the empty sequence. -/
theorem search_filter_total_witness :
    RHVectorStore.search { vectorstore := some sampleIndex } "congés" 4
      [("profil", "CDD")] = .ok [] :=
  (search_filter_total sampleIndex "congés" 4 [("profil", "CDD")]).2
    (by decide)

/-- C6: the retrieval tool is total and its result is exactly one of the
three sentinel forms — a caught vector-store exception yields the
technical sentinel (classified `TechnicalError`), a zero-result search
the not-found sentinel (classified `NotFound`), and a non-empty result
the formatted block (classified `Found`); no exception escapes, the
function always returns a string. -/
theorem search_rh_knowledge_outcome (vs : RHVectorStore) (q p : String)
    (dom : Option String) (k : Nat) :
    (∀ e, vs.search q k (buildSearchFilter p dom) = .error e →
      search_rh_knowledge vs q p dom k = ERREUR_TECHNIQUE_MSG e.message ∧
      classifyToolResult (search_rh_knowledge vs q p dom k) =
        .TechnicalError) ∧
    (vs.search q k (buildSearchFilter p dom) = .ok [] →
      search_rh_knowledge vs q p dom k = ERREUR_NOT_FOUND_MSG ∧
      classifyToolResult (search_rh_knowledge vs q p dom k) = .NotFound) ∧
    (∀ d ds, vs.search q k (buildSearchFilter p dom) = .ok (d :: ds) →
      search_rh_knowledge vs q p dom k = formatResults (d :: ds) ∧
      classifyToolResult (search_rh_knowledge vs q p dom k) = .Found) := by
  refine ⟨?_, ?_, ?_⟩
  · intro e he
    have heq : search_rh_knowledge vs q p dom k =
        ERREUR_TECHNIQUE_MSG e.message := by
      unfold search_rh_knowledge
      rw [he]
      rfl
    exact ⟨heq, heq ▸ classify_technique e.message⟩
  · intro he
    have heq : search_rh_knowledge vs q p dom k = ERREUR_NOT_FOUND_MSG := by
      unfold search_rh_knowledge
      rw [he]
      rfl
    exact ⟨heq, heq ▸ classify_notfound⟩
  · intro d ds he
    have heq : search_rh_knowledge vs q p dom k =
        formatResults (d :: ds) := by
      unfold search_rh_knowledge
      rw [he]
      rfl
    exact ⟨heq, heq ▸ classify_found d ds⟩

/-- C6 (witness): an uninitialized vector store makes the tool return the
technical sentinel, classified `TechnicalError`. -/
theorem search_rh_knowledge_outcome_witness :
    search_rh_knowledge { vectorstore := none } "congés" "CDI" none 4 =
      ERREUR_TECHNIQUE_MSG "Vectorstore non initialisé" ∧
    classifyToolResult (search_rh_knowledge { vectorstore := none } "congés"
      "CDI" none 4) = .TechnicalError :=
  (search_rh_knowledge_outcome { vectorstore := none } "congés" "CDI" none
    4).1 { message := "Vectorstore non initialisé" } (by rfl)

/-- C1 (amended): `sources_used` is computed from the final response
text, not from the retrieval outcome — it is `false` exactly when the
turn raised an exception or the response content contains the substring
`ERREUR_NOT_FOUND`. -/
theorem sources_used_substring (extract : Except String String)
    (tid : String) :
    (agentInvoke extract tid).sources_used = false ↔
      (∃ e, extract = .error e) ∨
      (∃ c, extract = .ok c ∧ "ERREUR_NOT_FOUND".data <:+: c.data) := by
  cases extract with
  | ok c => simp [agentInvoke, pyContains]
  | error e => simp [agentInvoke]

set_option maxRecDepth 8192 in
/-- C1 (counterexample): a turn whose retrieval outcome is `NotFound` —
the tool returned the not-found sentinel — but whose generative layer
relays the fixed redirection sentence the system prompt mandates yields
`sources_used = true`, refuting the claimed equivalence. -/
theorem sources_used_counterexample :
    turnOutcome notFoundObedientTurn = .NotFound ∧
    (turnResponse notFoundObedientTurn "t1").sources_used = true := by
  constructor
  · rfl
  · decide

/-- C7 (counterexample): the `AgentResponse` the `/query` endpoint hands
the client after an exception carries the raw exception message in its
`error` field — internal detail does reach the end user, refuting the
claim as stated. -/
theorem error_detail_reaches_user :
    (queryRoute (agentInvoke
        (.error "Erreur lors de la recherche: index FAISS corrompu")
        "t1")).error =
      some "Erreur lors de la recherche: index FAISS corrompu" ∧
    (queryRoute (agentInvoke
        (.error "Erreur lors de la recherche: index FAISS corrompu")
        "t1")).response = TECH_DIFFICULTY_MSG :=
  ⟨rfl, rfl⟩

/-- C7 (amended): on the exception path the response text is the fixed
technical-difficulty sentence and `sources_used` is false, but the raw
exception message travels in the `error` field of the payload the
`/query` endpoint returns verbatim. -/
theorem invoke_exception_response (e tid : String) :
    (queryRoute (agentInvoke (.error e) tid)).response =
      TECH_DIFFICULTY_MSG ∧
    (queryRoute (agentInvoke (.error e) tid)).sources_used = false ∧
    (queryRoute (agentInvoke (.error e) tid)).error = some e :=
  ⟨rfl, rfl, rfl⟩
